import Mathlib

/-!
Verification of the `hydrofunctions.usgs_rdb` module (file
`src/hydrofunctions/usgs_rdb.py`) against its natural-language
specification.

The module's core is `read_rdb(text)`: a line-classifying loop that
separates `#`-comment lines, a column-name row and a type-hint row from
the data lines, followed by a call to `pandas.read_csv` on the
newline-joined data lines with the fixed arguments
`sep="\t", comment="#", header=None, names=columns,
dtype={"site_no": str, "parameter_cd": str}`.

The embedding below translates the Python loop directly and models the
slice of `pandas.read_csv` behaviour that those fixed arguments exercise:
comment truncation at `#`, skipping of blank lines, tab-splitting,
padding of short rows with NA, absorption of leading extra columns of the
first row into the index, an (untyped) parser error on overlong rows,
per-column dtype inference (integer column when every value is an integer
literal and none is NA; float column when every value is a float literal
or NA; object/string column otherwise), the explicit `str` dtype override
for the two named columns, and the default NA-token list (an empty field
is NA, and NA stays the missing marker even in `str`-dtyped columns).

Modelling notes (none of these corners is exercised by any theorem):
* Python `str.splitlines` is modelled for the terminators `\n`, `\r\n`
  and `\r` only; the rarer terminators (`\v`, `\f`, ...) are not modelled.
* Numeric literals are modelled without surrounding whitespace and
  without infinity tokens; float values are represented exactly as the
  decimal rational they denote (binary rounding of 64-bit floats is not
  modelled; no theorem depends on a float value).
* Python exceptions are represented by the `PyError` type, with one
  constructor per exception the code can actually raise: `IndexError`
  from `line[0]` on an empty line, `UnboundLocalError` from reading the
  never-assigned `columns`/`dtype` locals, pandas `EmptyDataError` and
  `ParserError`, and `requests` `HTTPError` from `raise_for_status`.
-/

/-- A parsed pandas cell: verbatim string, integer, float (as the exact
decimal rational), or the missing marker (NaN). -/
inductive Cell where
  | str (s : String)
  | int (i : Int)
  | float (q : Rat)
  | missing
deriving DecidableEq, Repr

/-- The exceptions the embedded code can raise. -/
inductive PyError where
  | indexError
  | unboundLocalError
  | emptyDataError
  | parserError
  | httpError (code : Nat)
deriving DecidableEq, Repr

/-- Model of Python `str.splitlines` on a character list, restricted to
the terminators `\r\n`, `\n` and `\r`.  A trailing terminator produces no
empty final line. -/
def splitlinesAux : List Char → List Char → List (List Char)
  | [], acc => if acc.isEmpty then [] else [acc.reverse]
  | '\r' :: '\n' :: rest, acc => acc.reverse :: splitlinesAux rest []
  | '\n' :: rest, acc => acc.reverse :: splitlinesAux rest []
  | '\r' :: rest, acc => acc.reverse :: splitlinesAux rest []
  | c :: rest, acc => splitlinesAux rest (c :: acc)

/-- Model of Python `str.splitlines` (see `splitlinesAux`). -/
def splitlines (s : String) : List String :=
  (splitlinesAux s.data []).map (fun cs => String.mk cs)

/-- Split a character list at every separator character, keeping empty
pieces, with the same semantics as `String.split` (and, for a single-
character separator, `String.splitOn`). -/
def splitChars (p : Char → Bool) : List Char → List (List Char)
  | [] => [[]]
  | c :: rest =>
    if p c then [] :: splitChars p rest
    else
      match splitChars p rest with
      | t :: ts => (c :: t) :: ts
      | [] => [[c]]

/-- The first character of a string (`line[0]` in Python); the default
is irrelevant because every use is guarded by a non-emptiness test. -/
def headChar (s : String) : Char := s.data.headD ' '

/-- The ASCII whitespace characters recognised by Python `str.split()`. -/
def isPySpace (c : Char) : Bool :=
  c == ' ' || c == '\t' || c == '\n' || c == '\r' || c == '\x0b' || c == '\x0c'

/-- Model of Python `str.split()` with no arguments: split on runs of
whitespace, dropping empty pieces. -/
def pySplit (s : String) : List String :=
  ((splitChars isPySpace s.data).filter (fun l => !l.isEmpty)).map (fun l => String.mk l)

/-- The local state of the line-classifying loop of `read_rdb`
(`usgs_rdb.py` lines 39-52): the `header` and `datalines` accumulators,
the `count` counter and the two locals `columns` and `dtype`, which are
`none` while not yet assigned. -/
structure SplitState where
  header : List String
  datalines : List String
  count : Nat
  columns : Option (List String)
  dtype : Option (List String)
deriving DecidableEq, Repr

/-- The state before the loop: empty accumulators, `count = 0`, both
locals unassigned. -/
def initState : SplitState := ⟨[], [], 0, none, none⟩

/-- One iteration of the `for line in text.splitlines()` loop of
`read_rdb`.  `line[0]` raises `IndexError` on an empty line; a line whose
first character is `#` is appended to `header` (this branch is tested
first, before the `count` tests); the first other line is split into
`columns`, the second into `dtype`, and every later one is appended to
`datalines`. -/
def stepLine (st : SplitState) (line : String) : Except PyError SplitState :=
  if line = "" then .error .indexError
  else if headChar line == '#' then .ok { st with header := st.header ++ [line] }
  else if st.count = 0 then
    .ok { st with columns := some (pySplit line), count := st.count + 1 }
  else if st.count = 1 then
    .ok { st with dtype := some (pySplit line), count := st.count + 1 }
  else .ok { st with datalines := st.datalines ++ [line] }

/-- The whole loop: fold `stepLine` over the lines, propagating the first
exception. -/
def processLines (st : SplitState) : List String → Except PyError SplitState
  | [] => .ok st
  | l :: ls =>
    match stepLine st l with
    | .error e => .error e
    | .ok st1 => processLines st1 ls

/-- The section-splitting phase of `read_rdb`: run the loop on
`text.splitlines()` from the initial state. -/
def rdbSplit (text : String) : Except PyError SplitState :=
  processLines initState (splitlines text)

/-- Truncate a line at the first `#`, as `read_csv`'s `comment="#"`
argument does. -/
def truncComment (cs : List Char) : List Char :=
  cs.takeWhile (fun c => c ≠ '#')

/-- Model of Python `"\n".join(lines)`. -/
def joinLinesAux : List String → List Char
  | [] => []
  | [s] => s.data
  | s :: rest => s.data ++ '\n' :: joinLinesAux rest

/-- Model of Python `"\n".join(lines)` as a string. -/
def joinLines (ls : List String) : String := String.mk (joinLinesAux ls)

/-- The default NA tokens of `pandas.read_csv`; in particular an empty
field is NA. -/
def defaultNAValues : List String :=
  ["", "#N/A", "#N/A N/A", "#NA", "-1.#IND", "-1.#QNAN", "-NaN", "-nan",
   "1.#IND", "1.#QNAN", "N/A", "NA", "NULL", "NaN", "n/a", "nan", "null"]

/-- Whether a raw field is one of the default NA tokens. -/
def isNA (s : String) : Bool := defaultNAValues.contains s

/-- Drop one leading sign character, if present. -/
def stripSign : List Char → List Char
  | '+' :: r => r
  | '-' :: r => r
  | r => r

/-- Whether a field is an integer literal: optional sign, then one or
more digits. -/
def isIntLit (s : String) : Bool :=
  !(stripSign s.data).isEmpty && (stripSign s.data).all Char.isDigit

/-- The part of an (unsigned) literal before the exponent marker. -/
def mantissaOf (cs : List Char) : List Char :=
  cs.takeWhile (fun c => c ≠ 'e' && c ≠ 'E')

/-- The part of an (unsigned) literal from the exponent marker on. -/
def expPartOf (cs : List Char) : List Char :=
  cs.dropWhile (fun c => c ≠ 'e' && c ≠ 'E')

/-- A valid float mantissa: digits and at most one dot, with at least one
digit. -/
def isMantissa (cs : List Char) : Bool :=
  cs.all (fun c => c.isDigit || c == '.') && decide (cs.count '.' ≤ 1)
    && cs.any Char.isDigit

/-- A valid (possibly absent) exponent part: empty, or the marker
followed by an optionally signed digit run. -/
def isExpPart : List Char → Bool
  | [] => true
  | _ :: r =>
    let b := stripSign r
    !b.isEmpty && b.all Char.isDigit

/-- Whether a field is a float literal: optional sign, mantissa, optional
exponent. -/
def isFloatLit (s : String) : Bool :=
  isMantissa (mantissaOf (stripSign s.data)) && isExpPart (expPartOf (stripSign s.data))

/-- The natural number denoted by a digit run. -/
def digitsToNat (cs : List Char) : Nat :=
  cs.foldl (fun n c => 10 * n + (c.toNat - '0'.toNat)) 0

/-- The integer denoted by an integer literal. -/
def parseIntLit (s : String) : Int :=
  match s.data with
  | '-' :: r => -(digitsToNat r : Int)
  | '+' :: r => (digitsToNat r : Int)
  | r => (digitsToNat r : Int)

/-- The exact rational denoted by a float literal. -/
def parseFloatLit (s : String) : Rat :=
  let b := stripSign s.data
  let m := mantissaOf b
  let ip := m.takeWhile (fun c => c ≠ '.')
  let fp := (m.dropWhile (fun c => c ≠ '.')).drop 1
  let mant : Rat := (digitsToNat ip : Rat) + (digitsToNat fp : Rat) / (10 : Rat) ^ fp.length
  let signed : Rat := if s.data.head? = some '-' then -mant else mant
  match expPartOf b with
  | [] => signed
  | _ :: r =>
    let ds := stripSign r
    if r.head? = some '-' then signed / (10 : Rat) ^ digitsToNat ds
    else signed * (10 : Rat) ^ digitsToNat ds

/-- The type pandas assigns to a whole column. -/
inductive ColType where
  | str
  | int
  | float
  | obj
deriving DecidableEq, Repr

/-- Pandas column-type resolution for the fixed arguments of `read_rdb`:
a column with an explicit `str` dtype stays string; otherwise a column
whose values are all integer literals (none NA) is an integer column, all
integer literals with at least one NA or all float literals is a float
column, and anything else is an object (string) column. -/
def inferColType (dtypeStr : Bool) (vals : List String) : ColType :=
  if dtypeStr then .str
  else if vals.all (fun v => isNA v || isIntLit v) then
    if vals.any isNA then .float else .int
  else if vals.all (fun v => isNA v || isFloatLit v) then .float
  else .obj

/-- Convert one raw field given its column's resolved type.  An NA field
is the missing marker in every column, the explicit `str` dtype included;
a non-NA field is converted per the column type. -/
def convertCell (t : ColType) (v : String) : Cell :=
  if isNA v then .missing
  else
    match t with
    | .str => .str v
    | .obj => .str v
    | .int => .int (parseIntLit v)
    | .float => .float (parseFloatLit v)

/-- The parsed table: column names, the rows of the absorbed index
(empty lists when the first data row is not wider than the names), and
the data rows. -/
structure DataFrame where
  columns : List String
  indexRows : List (List Cell)
  rows : List (List Cell)
deriving DecidableEq, Repr

/-- Tokenisation stage of `read_csv` on the joined data block: split into
lines, truncate each at `#`, skip blank lines, split the rest on tabs. -/
def csvRawRows (data : String) : List (List String) :=
  (((splitChars (fun c => c == '\n') data.data).map truncComment).filter
      (fun l => !l.isEmpty)).map
    (fun l => (splitChars (fun c => c == '\t') l).map (fun f => String.mk f))

/-- The row width the tokenizer settles on: the larger of the first row's
field count and the number of supplied names. -/
def csvWidth (names : List String) (rows : List (List String)) : Nat :=
  max (rows.headD []).length names.length

/-- Pad a row with empty (NA) fields up to the settled width, as pandas
pads short rows with NaN. -/
def csvPad (w : Nat) (r : List String) : List String :=
  r ++ List.replicate (w - r.length) ""

/-- How many leading columns of each row are absorbed into the index:
the excess of the first row's field count over the number of names. -/
def csvK (names : List String) (rows : List (List String)) : Nat :=
  (rows.headD []).length - names.length

/-- The padded grid of data fields, after dropping the index columns. -/
def csvDataGrid (names : List String) (rows : List (List String)) : List (List String) :=
  rows.map (fun r => (csvPad (csvWidth names rows) r).drop (csvK names rows))

/-- The padded grid of absorbed index fields. -/
def csvIndexGrid (names : List String) (rows : List (List String)) : List (List String) :=
  rows.map (fun r => (csvPad (csvWidth names rows) r).take (csvK names rows))

/-- The raw values of one column of a grid. -/
def colValues (grid : List (List String)) (c : Nat) : List String :=
  grid.map (fun r => r.getD c "")

/-- Whether a column name receives the explicit `str` dtype: exactly the
two keys of the `dtype={"site_no": str, "parameter_cd": str}` argument.
The commented-out TODO at `usgs_rdb.py` line 65 notes that `*_cd` columns
should also be strings, but the code does not do it. -/
def isStrDtypeCol (name : String) : Bool :=
  name == "site_no" || name == "parameter_cd"

/-- The resolved type of every data column. -/
def csvColTypes (names : List String) (rows : List (List String)) : List ColType :=
  (List.range names.length).map (fun c =>
    inferColType (isStrDtypeCol (names.getD c "")) (colValues (csvDataGrid names rows) c))

/-- The resolved type of every absorbed index column (no dtype override
applies: the absorbed columns carry no name). -/
def csvIndexColTypes (names : List String) (rows : List (List String)) : List ColType :=
  (List.range (csvK names rows)).map (fun c =>
    inferColType false (colValues (csvIndexGrid names rows) c))

/-- Convert a whole grid of raw fields to cells, column by column. -/
def typeGrid (types : List ColType) (width : Nat) (grid : List (List String)) : List (List Cell) :=
  grid.map (fun r =>
    (List.range width).map (fun c => convertCell (types.getD c .obj) (r.getD c "")))

/-- Model of `pandas.read_csv(StringIO(data), sep="\t", comment="#",
header=None, names=names, dtype={"site_no": str, "parameter_cd": str})`.
Empty content raises `EmptyDataError`; a row wider than the settled width
raises `ParserError`; otherwise short rows are padded with NA, leading
extra columns of the first row are absorbed into the index, and every
column is typed by `inferColType`. -/
def read_csv (data : String) (names : List String) : Except PyError DataFrame :=
  if (csvRawRows data).isEmpty then .error .emptyDataError
  else if (csvRawRows data).any
      (fun r => csvWidth names (csvRawRows data) < r.length) then .error .parserError
  else
    .ok
      { columns := names
        indexRows :=
          typeGrid (csvIndexColTypes names (csvRawRows data))
            (csvK names (csvRawRows data)) (csvIndexGrid names (csvRawRows data))
        rows :=
          typeGrid (csvColTypes names (csvRawRows data)) names.length
            (csvDataGrid names (csvRawRows data)) }

/-- The quadruple `read_rdb` returns: the dataframe, the column names,
the type-hint row and the comment-header lines. -/
abbrev RdbResult := DataFrame × List String × List String × List String

/-- The tail of `read_rdb` after the loop: join the data lines, call
`read_csv`, and build the returned quadruple.  Reading the never-assigned
local `columns` (when no non-comment line occurred) or `dtype` (in the
return statement) raises `UnboundLocalError`; the `read_csv` call
evaluates `columns` first, then runs, and `dtype` is only read in the
return statement afterwards, matching Python's evaluation order. -/
def rdbAssemble (r : Except PyError SplitState) : Except PyError RdbResult :=
  match r with
  | .error e => .error e
  | .ok st =>
    match st.columns with
    | none => .error .unboundLocalError
    | some columns =>
      match read_csv (joinLines st.datalines) columns with
      | .error e => .error e
      | .ok df =>
        match st.dtype with
        | none => .error .unboundLocalError
        | some dt => .ok (df, columns, dt, st.header)

/-- The embedded `read_rdb` (`usgs_rdb.py` lines 15-67): run the
line-classifying loop, then assemble the result. -/
def read_rdb (text : String) : Except PyError RdbResult :=
  rdbAssemble (rdbSplit text)

/-- An HTTP response as `stats` consumes it: status code and body text. -/
structure Response where
  status_code : Nat
  text : String
deriving DecidableEq, Repr

/-- Model of `requests.Response.raise_for_status`: raise `HTTPError` for
a 4xx or 5xx status, do nothing otherwise. -/
def raise_for_status (r : Response) : Except PyError Unit :=
  if 400 ≤ r.status_code ∧ r.status_code < 600 then .error (.httpError r.status_code)
  else .ok ()

/-- What `stats` hands back on success: a parsed table, or (for a
non-200, non-error status) the raw response object. -/
inductive StatsResult where
  | table (df : DataFrame)
  | raw (r : Response)
deriving DecidableEq, Repr

/-- The embedded tail of `stats` (`usgs_rdb.py` lines 277-288), from the
point where the HTTP response is in hand.  The first component is the
list of bodies passed to `display.display(display.HTML(...))`; the
second is the outcome.  On a non-200 status the body is displayed, then
`raise_for_status` runs, and if it does not raise the raw response object
is returned; on a 200 status `read_rdb` parses the body and the
dataframe is returned. -/
def stats (r : Response) : List String × Except PyError StatsResult :=
  if r.status_code ≠ 200 then
    match raise_for_status r with
    | .error e => ([r.text], .error e)
    | .ok _ => ([r.text], .ok (.raw r))
  else
    match read_rdb r.text with
    | .error e => ([], .error e)
    | .ok (df, _, _, _) => ([], .ok (.table df))

/-- Forget the type-hint component of a `read_rdb` result, keeping the
dataframe, the column names and the header lines. -/
def stripHints (res : RdbResult) : DataFrame × List String × List String :=
  (res.1, res.2.1, res.2.2.2)

/-- The fields of the loop state that `stepLine` ever reads, plus the
accumulators other than `dtype`: everything except the `dtype` local. -/
def stateView (st : SplitState) : List String × List String × Nat × Option (List String) :=
  (st.header, st.datalines, st.count, st.columns)

deriving instance DecidableEq for Except

/-! ## Theorems -/

/-- C1: the claim says every column named `site_no`/`parameter_cd` or
ending in `_cd` is String-typed with values kept verbatim.  The code only
gives the `str` dtype to the two literal names `site_no` and
`parameter_cd`; a digit-only `*_cd` column is inferred numeric, so the
value `0123` of column `value_cd` comes back as the integer `123` with
its leading zero lost, while `site_no` keeps `01546500` verbatim.  The
commented-out TODO at `usgs_rdb.py` line 65 records that `*_cd` columns
were meant to be strings, so this is a bug in the code rather than in the
claim. -/
theorem read_rdb_cd_suffix_column_numeric :
    read_rdb "agency_cd\tsite_no\tvalue_cd\n5s\t15s\t6n\nUSGS\t01546500\t0123" =
      .ok (⟨["agency_cd", "site_no", "value_cd"], [[]],
            [[.str "USGS", .str "01546500", .int 123]]⟩,
           ["agency_cd", "site_no", "value_cd"], ["5s", "15s", "6n"], []) := by
  decide

/-- C2, counterexample: the claim says an empty field in a String-typed
column is parsed as the empty string.  In the code an empty field is an
NA token even under the `str` dtype, so the empty `site_no` field of this
document is the missing marker, not `Cell.str ""`. -/
theorem read_rdb_empty_string_field_cex :
    read_rdb "site_no\tv\n15s 3n\n\t5" =
      .ok (⟨["site_no", "v"], [[]], [[.missing, .int 5]]⟩,
           ["site_no", "v"], ["15s", "3n"], []) := by
  decide

/-- C3, counterexample: the claim says a data line whose field count
differs from the number of column names makes the parse fail.  Here the
second data line has two fields against three column names, yet the
parse succeeds and the short row is silently padded with the missing
marker (which also demotes column `c` from integer to a column holding a
missing value). -/
theorem read_rdb_short_row_cex :
    read_rdb "a\tb\tc\nh1 h2 h3\n1\t2\tx\n4\t5" =
      .ok (⟨["a", "b", "c"], [[], []],
            [[.int 1, .int 2, .str "x"], [.int 4, .int 5, .missing]]⟩,
           ["a", "b", "c"], ["h1", "h2", "h3"], []) := by
  decide

/-- C4, counterexample: the claim says that once the column-name row and
the type-hint row are consumed, every remaining line, including lines
whose first character is `#`, is appended to the data block.  On the
input `"A\nB\n#c\nD"` the line `#c` follows the two header rows, yet the
data block is `["D"]` and `#c` lands in the comment-header list: the
`line[0] == "#"` test precedes the count tests, so the machine moves a
later `#` line back to header collection. -/
theorem rdbSplit_comment_after_hints_cex :
    rdbSplit "A\nB\n#c\nD" =
        .ok ⟨["#c"], ["D"], 2, some ["A"], some ["B"]⟩ ∧
      ["D"] ≠ ["#c", "D"] := by
  decide

/-- C5, counterexample: the claim says a blank line where a data row is
expected is tolerated.  A blank line makes `line[0]` raise `IndexError`,
so this parse fails. -/
theorem read_rdb_blank_line_cex :
    read_rdb "A\nB\n\nC" = .error .indexError := by
  decide

/-- C6, counterexample: the claim says empty input fails with a typed
`TruncatedDocument` format error.  The code has no such error type: on
empty input the loop never assigns the local `columns`, and the
`read_csv` call raises an untyped `UnboundLocalError`. -/
theorem read_rdb_empty_input_cex :
    read_rdb "" = .error .unboundLocalError := by
  decide

/-- C7, counterexample: the claim says a column whose type-hint letter is
`d` has effective type Date, with `YYYY-MM-DD` parsing and a
`CellTypeMismatch` failure on a malformed date.  The code never reads the
hint row when parsing: the `20d`-hinted column below keeps both the
well-formed date and the malformed `not-a-date` verbatim as strings, and
the parse succeeds. -/
theorem read_rdb_date_hint_cex :
    read_rdb
        "site_no\tdatetime\n15s\t20d\n01546500\t2020-01-01\n01546500\tnot-a-date" =
      .ok (⟨["site_no", "datetime"], [[], []],
            [[.str "01546500", .str "2020-01-01"],
             [.str "01546500", .str "not-a-date"]]⟩,
           ["site_no", "datetime"], ["15s", "20d"], []) := by
  decide

/-- C9, counterexample: the claim says the statistics fetcher signals
failure to its caller for every non-200 response.  For status 204 the
body is displayed but `raise_for_status` does not raise (it only raises
for 4xx/5xx), and the raw response object is returned as a success
value. -/
theorem stats_non200_cex :
    stats ⟨204, "oops"⟩ = (["oops"], .ok (.raw ⟨204, "oops"⟩)) := by
  decide

/-! ## Helper lemmas -/

theorem convertCell_missing_iff (t : ColType) (v : String) :
    convertCell t v = .missing ↔ isNA v = true := by
  unfold convertCell
  by_cases h : isNA v
  · simp [h]
  · simp only [h, if_neg, Bool.false_eq_true, iff_false]
    cases t <;> simp [h]

theorem processLines_ok_lines_nonempty {ls : List String} {st st' : SplitState}
    (h : processLines st ls = .ok st') : ∀ l ∈ ls, l ≠ "" := by
  induction ls generalizing st with
  | nil => simp
  | cons l ls ih =>
    intro x hx
    unfold processLines at h
    cases hst : stepLine st l with
    | error e => rw [hst] at h; exact absurd h (by simp)
    | ok st1 =>
      rw [hst] at h
      rw [List.mem_cons] at hx
      rcases hx with rfl | hx
      · intro hempty
        rw [hempty] at hst
        unfold stepLine at hst
        simp at hst
      · exact ih h x hx

theorem processLines_ok_header {ls : List String} {st st' : SplitState}
    (h : processLines st ls = .ok st') :
    st'.header = st.header ++ ls.filter (fun l => headChar l == '#') := by
  induction ls generalizing st with
  | nil =>
    unfold processLines at h
    simp at h
    simp [← h]
  | cons l ls ih =>
    unfold processLines at h
    cases hst : stepLine st l with
    | error e => rw [hst] at h; exact absurd h (by simp)
    | ok st1 =>
      rw [hst] at h
      have hh := ih h
      unfold stepLine at hst
      by_cases he : l = ""
      · simp [he] at hst
      · rw [if_neg he] at hst
        by_cases hc : headChar l == '#'
        · rw [if_pos hc] at hst
          cases hst
          simp [hh, hc]
        · rw [if_neg hc] at hst
          have hsteq : st1.header = st.header := by
            split at hst <;> [skip; split at hst] <;> (cases hst; rfl)
          simp [hh, hsteq, hc]
theorem processLines_append (as bs : List String) (st : SplitState) :
    processLines st (as ++ bs) =
      match processLines st as with
      | .error e => .error e
      | .ok st1 => processLines st1 bs := by
  induction as generalizing st with
  | nil => simp [processLines]
  | cons a as ih =>
    simp only [List.cons_append, processLines]
    cases hst : stepLine st a with
    | error e => simp
    | ok st1 => exact ih st1

theorem processLines_comments {ls : List String}
    (h : ∀ l ∈ ls, l ≠ "" ∧ (headChar l == '#') = true) (st : SplitState) :
    processLines st ls = .ok { st with header := st.header ++ ls } := by
  induction ls generalizing st with
  | nil => simp [processLines]
  | cons l ls ih =>
    obtain ⟨hne, hc⟩ := h l (by simp)
    have hstep : stepLine st l = .ok { st with header := st.header ++ [l] } := by
      unfold stepLine
      rw [if_neg hne, if_pos hc]
    simp only [processLines]
    rw [hstep]
    dsimp only
    rw [ih (fun x hx => h x (by simp [hx]))]
    simp [List.append_assoc]

theorem processLines_dataPhase {ls : List String}
    (h : ∀ l ∈ ls, l ≠ "") {st : SplitState} (hc : st.count = 2) :
    processLines st ls =
      .ok { st with
            header := st.header ++ ls.filter (fun l => headChar l == '#'),
            datalines := st.datalines ++ ls.filter (fun l => !(headChar l == '#')) } := by
  induction ls generalizing st with
  | nil => simp [processLines]
  | cons l ls ih =>
    have hne := h l (by simp)
    by_cases hch : (headChar l == '#') = true
    · have hstep : stepLine st l = .ok { st with header := st.header ++ [l] } := by
        unfold stepLine
        rw [if_neg hne, if_pos hch]
      simp only [processLines]
      rw [hstep]
      dsimp only
      rw [ih (fun x hx => h x (by simp [hx])) (by simp [hc])]
      simp [hch, List.append_assoc]
    · have hstep : stepLine st l = .ok { st with datalines := st.datalines ++ [l] } := by
        unfold stepLine
        rw [if_neg hne, if_neg hch, if_neg (by simp [hc] : ¬ st.count = 0),
          if_neg (by simp [hc] : ¬ st.count = 1)]
      simp only [processLines]
      rw [hstep]
      dsimp only
      rw [ih (fun x hx => h x (by simp [hx])) (by simp [hc])]
      simp [hch, List.append_assoc]

theorem stepLine_stateView {st1 st2 : SplitState}
    (h : stateView st1 = stateView st2) (l : String) :
    (stepLine st1 l).map stateView = (stepLine st2 l).map stateView := by
  obtain ⟨h1, h2, h3, h4⟩ :
      st1.header = st2.header ∧ st1.datalines = st2.datalines ∧
        st1.count = st2.count ∧ st1.columns = st2.columns := by
    simpa [stateView, Prod.ext_iff] using h
  unfold stepLine
  by_cases he : l = ""
  · simp [he]
  · simp only [if_neg he]
    by_cases hch : (headChar l == '#') = true
    · simp [hch, Except.map, stateView, h1, h2, h3, h4]
    · simp only [if_neg hch]
      rw [h3]
      by_cases h0 : st2.count = 0
      · simp [h0, Except.map, stateView, h1, h2, h4]
      · simp only [if_neg h0]
        by_cases hone : st2.count = 1
        · simp [hone, Except.map, stateView, h1, h2, h4]
        · simp [if_neg hone, Except.map, stateView, h1, h2, h3, h4]

theorem processLines_stateView {ls : List String} {st1 st2 : SplitState}
    (h : stateView st1 = stateView st2) :
    (processLines st1 ls).map stateView = (processLines st2 ls).map stateView := by
  induction ls generalizing st1 st2 with
  | nil => simp [processLines, Except.map, h]
  | cons l ls ih =>
    have hm := stepLine_stateView h l
    simp only [processLines]
    cases e1 : stepLine st1 l with
    | error e =>
      cases e2 : stepLine st2 l with
      | error e' =>
        rw [e1, e2] at hm
        simpa [Except.map] using hm
      | ok t2 => rw [e1, e2] at hm; simp [Except.map] at hm
    | ok t1 =>
      cases e2 : stepLine st2 l with
      | error e' => rw [e1, e2] at hm; simp [Except.map] at hm
      | ok t2 =>
        rw [e1, e2] at hm
        simp only [Except.map, Except.ok.injEq] at hm
        exact ih hm
theorem stepLine_ok_of_ne {st : SplitState} {l : String} (hne : l ≠ "") :
    ∃ st', stepLine st l = .ok st' := by
  unfold stepLine
  rw [if_neg hne]
  by_cases hch : (headChar l == '#') = true
  · rw [if_pos hch]; exact ⟨_, rfl⟩
  · rw [if_neg hch]
    by_cases h0 : st.count = 0
    · rw [if_pos h0]; exact ⟨_, rfl⟩
    · rw [if_neg h0]
      by_cases h1 : st.count = 1
      · rw [if_pos h1]; exact ⟨_, rfl⟩
      · rw [if_neg h1]; exact ⟨_, rfl⟩

theorem processLines_blank_mem {ls : List String} (h : "" ∈ ls) (st : SplitState) :
    processLines st ls = .error .indexError := by
  induction ls generalizing st with
  | nil => simp at h
  | cons l ls ih =>
    rw [List.mem_cons] at h
    simp only [processLines]
    by_cases he : l = ""
    · have hstep : stepLine st l = .error .indexError := by
        unfold stepLine; rw [if_pos he]
      rw [hstep]
    · have hmem : "" ∈ ls := by
        rcases h with h | h
        · exact absurd h.symm he
        · exact h
      obtain ⟨st', hst⟩ := stepLine_ok_of_ne he
      rw [hst]
      exact ih hmem st'

theorem splitlinesAux_append_newline (cs acc : List Char) :
    ∀ c, cs.getLast? = some c → c ≠ '\n' → c ≠ '\r' →
      splitlinesAux (cs ++ ['\n']) acc = splitlinesAux cs acc := by
  induction cs, acc using splitlinesAux.induct with
  | case1 acc hacc => intro c hc hn hr; simp at hc
  | case2 acc hacc => intro c hc hn hr; simp at hc
  | case3 rest acc ih =>
    intro c hc hn hr
    cases rest with
    | nil => simp at hc; exact absurd hc.symm hn
    | cons r rs =>
      rw [List.getLast?_cons_cons, List.getLast?_cons_cons] at hc
      simp only [List.cons_append, splitlinesAux, List.append_eq]
      rw [show r :: (rs ++ ['\n']) = (r :: rs) ++ ['\n'] from rfl]
      rw [ih c hc hn hr]
  | case4 rest acc ih =>
    intro c hc hn hr
    cases rest with
    | nil => simp at hc; exact absurd hc.symm hn
    | cons r rs =>
      rw [List.getLast?_cons_cons] at hc
      simp only [List.cons_append, splitlinesAux, List.append_eq]
      rw [show r :: (rs ++ ['\n']) = (r :: rs) ++ ['\n'] from rfl]
      rw [ih c hc hn hr]
  | case5 rest acc hside ih =>
    intro c hc hn hr
    cases rest with
    | nil => simp at hc; exact absurd hc.symm hr
    | cons r rs =>
      rw [List.getLast?_cons_cons] at hc
      have hrne : r ≠ '\n' := fun hreq => hside rs (by rw [hreq])
      simp only [List.cons_append]
      rw [splitlinesAux.eq_4 _ _ (fun r1 hr1 => hrne (List.cons.inj hr1).1)]
      rw [show r :: (rs ++ ['\n']) = (r :: rs) ++ ['\n'] from rfl]
      rw [ih c hc hn hr]
      rw [splitlinesAux.eq_4 _ _ (fun r1 hr1 => hrne (List.cons.inj hr1).1)]
  | case6 c0 rest acc hside hn0 hr0 ih =>
    intro c hc hn hr
    cases rest with
    | nil =>
      simp only [List.getLast?_singleton, Option.some.injEq] at hc
      simp only [List.nil_append, List.cons_append]
      rw [splitlinesAux.eq_5 _ _ _ (fun r1 hcr _ => hr0 hcr) hn0 hr0]
      rw [splitlinesAux.eq_3]
      rw [splitlinesAux.eq_5 _ _ _ (fun r1 hcr hbad => by cases hbad) hn0 hr0]
      simp [splitlinesAux]
    | cons r rs =>
      rw [List.getLast?_cons_cons] at hc
      simp only [List.cons_append]
      rw [splitlinesAux.eq_5 _ _ _ (fun r1 hcr _ => hr0 hcr) hn0 hr0]
      rw [show r :: (rs ++ ['\n']) = (r :: rs) ++ ['\n'] from rfl]
      rw [ih c hc hn hr]
      rw [splitlinesAux.eq_5 _ _ _ (fun r1 hcr _ => hr0 hcr) hn0 hr0]
theorem isIntLit_isFloatLit {s : String} (h : isIntLit s = true) : isFloatLit s = true := by
  unfold isIntLit at h
  simp only [Bool.and_eq_true, Bool.not_eq_true', List.all_eq_true] at h
  obtain ⟨hne, hdig⟩ := h
  have hne' : stripSign s.data ≠ [] := by
    intro hn; rw [hn] at hne; simp at hne
  have hnotE : ∀ c ∈ stripSign s.data, (decide (c ≠ 'e') && decide (c ≠ 'E')) = true := by
    intro c hc
    have hd := hdig c hc
    simp only [Bool.and_eq_true, decide_eq_true_eq]
    constructor
    · rintro rfl; simp [Char.isDigit] at hd
    · rintro rfl; simp [Char.isDigit] at hd
  have hnd : '.' ∉ stripSign s.data := by
    intro hmem
    have := hdig _ hmem
    simp [Char.isDigit] at this
  obtain ⟨c0, hc0⟩ := List.exists_mem_of_ne_nil _ hne'
  have h1 : (stripSign s.data).all (fun c => c.isDigit || c == '.') = true :=
    List.all_eq_true.2 (fun c hc => by simp [hdig c hc])
  have h2 : List.count '.' (stripSign s.data) = 0 := List.count_eq_zero.2 hnd
  have h3 : (stripSign s.data).any Char.isDigit = true :=
    List.any_eq_true.2 ⟨c0, hc0, hdig c0 hc0⟩
  unfold isFloatLit mantissaOf expPartOf
  rw [List.takeWhile_eq_self_iff.2 hnotE, List.dropWhile_eq_nil_iff.2 hnotE]
  simp [isMantissa, isExpPart, h1, h2, h3]

theorem convertCell_infer_nonnumeric {b : Bool} {vals : List String} {raw : String}
    (hmem : raw ∈ vals) (hna : isNA raw = false) (hfl : isFloatLit raw = false) :
    convertCell (inferColType b vals) raw = .str raw := by
  have hint : isIntLit raw = false := by
    cases hi : isIntLit raw
    · rfl
    · exact absurd (isIntLit_isFloatLit hi) (by simp [hfl])
  unfold inferColType
  by_cases hb : b = true
  · simp [hb, convertCell, hna]
  · have hall1 : vals.all (fun v => isNA v || isIntLit v) = false := by
      rw [List.all_eq_false]
      exact ⟨raw, hmem, by simp [hna, hint]⟩
    have hall2 : vals.all (fun v => isNA v || isFloatLit v) = false := by
      rw [List.all_eq_false]
      exact ⟨raw, hmem, by simp [hna, hfl]⟩
    simp [hb, hall1, hall2, convertCell, hna]

theorem getD_map_range {α : Type} (f : Nat → α) {n c : Nat} (d : α) (h : c < n) :
    ((List.range n).map f).getD c d = f c := by
  rw [List.getD_eq_getElem?_getD, List.getElem?_map, List.getElem?_range h]
  rfl

theorem getD_replicate_self {α : Type} (k j : Nat) (a : α) :
    (List.replicate k a).getD j a = a := by
  simp [List.getD]

theorem read_csv_ok_shape {data : String} {names : List String} {df : DataFrame}
    (h : read_csv data names = .ok df) :
    df.columns = names ∧
      df.rows =
        typeGrid (csvColTypes names (csvRawRows data)) names.length
          (csvDataGrid names (csvRawRows data)) := by
  unfold read_csv at h
  split at h
  · exact absurd h (by simp)
  · split at h
    · exact absurd h (by simp)
    · cases h; exact ⟨rfl, rfl⟩

theorem read_csv_cell {data : String} {names : List String} {df : DataFrame}
    (h : read_csv data names = .ok df)
    {i c : Nat} {row : List Cell} {cell : Cell} {graw : List String} {raw : String}
    (hrow : df.rows[i]? = some row) (hcell : row[c]? = some cell)
    (hgraw : (csvDataGrid names (csvRawRows data))[i]? = some graw)
    (hraw : graw[c]? = some raw) :
    c < names.length ∧
      cell = convertCell ((csvColTypes names (csvRawRows data)).getD c .obj) raw := by
  obtain ⟨-, hrows⟩ := read_csv_ok_shape h
  rw [hrows] at hrow
  unfold typeGrid at hrow
  rw [List.getElem?_map, hgraw] at hrow
  simp only [Option.map_some', Option.some.injEq] at hrow
  subst hrow
  rw [List.getElem?_map] at hcell
  have hlt : c < names.length := by
    by_contra hge
    rw [List.getElem?_eq_none (by simpa [List.length_range] using Nat.le_of_not_lt hge)] at hcell
    simp at hcell
  rw [List.getElem?_range hlt] at hcell
  simp only [Option.map_some', Option.some.injEq] at hcell
  have hgetD : graw.getD c "" = raw := by
    rw [List.getD_eq_getElem?_getD, hraw]
    rfl
  rw [← hcell, hgetD]
  exact ⟨hlt, rfl⟩
/-- C2 (amended): an empty field (any default NA token, in particular the
empty string) yields the missing marker in every column, String-typed
columns included, and a non-NA field never yields the missing marker: a
cell of a successfully parsed table is `Cell.missing` exactly when its
raw field is an NA token.  The original claim's `Cell.str ""` outcome for
empty fields of String columns does not exist in the code. -/
theorem read_csv_missing_iff_na :
    ∀ (data : String) (names : List String) (df : DataFrame),
      read_csv data names = .ok df →
      ∀ (i c : Nat) (row : List Cell) (cell : Cell) (graw : List String) (raw : String),
        df.rows[i]? = some row → row[c]? = some cell →
        (csvDataGrid names (csvRawRows data))[i]? = some graw → graw[c]? = some raw →
        (cell = .missing ↔ isNA raw = true) := by
  intro data names df h i c row cell graw raw hrow hcell hgraw hraw
  obtain ⟨-, hc⟩ := read_csv_cell h hrow hcell hgraw hraw
  rw [hc]
  exact convertCell_missing_iff _ _

/-- C2, witness: in the parsed table of a document whose `site_no` column
(`str`-dtyped) has an empty field, that cell is missing, per
`read_csv_missing_iff_na` at row 0, column 0. -/
theorem read_csv_missing_iff_na_witness :
    (Cell.missing = Cell.missing ↔ isNA "" = true) :=
  read_csv_missing_iff_na "\t5" ["site_no", "v"]
    ⟨["site_no", "v"], [[]], [[.missing, .int 5]]⟩ (by decide)
    0 0 [.missing, .int 5] .missing ["", "5"] "" (by decide) (by decide) (by decide)
    (by decide)

/-- C7 (amended): the type-hint row has no effect on cell parsing: a
non-NA field that is not a numeric literal (for example a `YYYY-MM-DD`
date, or a malformed date) is kept verbatim as a string in the parsed
table, never parsed to a date value and never rejected, whatever the
hints say; an empty field in such a column is an NA token and yields the
missing marker. -/
theorem read_csv_nonnumeric_verbatim :
    ∀ (data : String) (names : List String) (df : DataFrame),
      read_csv data names = .ok df →
      ∀ (i c : Nat) (row : List Cell) (cell : Cell) (graw : List String) (raw : String),
        df.rows[i]? = some row → row[c]? = some cell →
        (csvDataGrid names (csvRawRows data))[i]? = some graw → graw[c]? = some raw →
        isNA raw = false → isFloatLit raw = false →
        cell = .str raw := by
  intro data names df h i c row cell graw raw hrow hcell hgraw hraw hna hfl
  obtain ⟨hlt, hc⟩ := read_csv_cell h hrow hcell hgraw hraw
  rw [hc]
  unfold csvColTypes
  rw [getD_map_range _ _ hlt]
  apply convertCell_infer_nonnumeric _ hna hfl
  have hcol : (colValues (csvDataGrid names (csvRawRows data)) c)[i]? = some raw := by
    unfold colValues
    rw [List.getElem?_map, hgraw]
    simp only [Option.map_some', Option.some.injEq]
    rw [List.getD_eq_getElem?_getD, hraw]
    rfl
  exact List.getElem?_mem hcol

/-- C7, witness: the `2020-01-01` field of the `20d`-hinted column of a
concrete document is the verbatim string cell, per
`read_csv_nonnumeric_verbatim` at row 0, column 1. -/
theorem read_csv_nonnumeric_verbatim_witness :
    Cell.str "2020-01-01" = Cell.str "2020-01-01" :=
  read_csv_nonnumeric_verbatim "01546500\t2020-01-01" ["site_no", "datetime"]
    ⟨["site_no", "datetime"], [[]], [[.str "01546500", .str "2020-01-01"]]⟩ (by decide)
    0 1 [.str "01546500", .str "2020-01-01"] (.str "2020-01-01")
    ["01546500", "2020-01-01"] "2020-01-01"
    (by decide) (by decide) (by decide) (by decide) (by decide) (by decide)
/-- C3 (amended): a data line with fewer tab-separated fields than column
names does not make the parse fail: the parse succeeds (when no line is
overlong), every parsed row still has exactly one cell per column name,
and the cells beyond a short line's fields are the missing marker — the
row is silently padded.  No typed RowArity error exists in the code (an
overlong row raises an untyped pandas `ParserError` instead). -/
theorem read_csv_short_rows_padded :
    ∀ (data : String) (names : List String),
      csvRawRows data ≠ [] →
      (∀ r ∈ csvRawRows data, r.length ≤ names.length) →
      ∃ df, read_csv data names = .ok df ∧
        (∀ row ∈ df.rows, row.length = names.length) ∧
        (∀ (i : Nat) (rraw : List String), (csvRawRows data)[i]? = some rraw →
          ∀ c : Nat, rraw.length ≤ c → c < names.length →
            ∃ row, df.rows[i]? = some row ∧ row[c]? = some Cell.missing) := by
  intro data names hne hw
  have hempty : (csvRawRows data).isEmpty = false := by
    cases hr : csvRawRows data with
    | nil => exact absurd hr hne
    | cons a as => rfl
  have hhd : ((csvRawRows data).headD []).length ≤ names.length := by
    cases hr : csvRawRows data with
    | nil => simp
    | cons a as =>
      simp only [List.headD_cons]
      exact hw a (by rw [hr]; exact List.mem_cons_self a as)
  have hwidth : csvWidth names (csvRawRows data) = names.length := by
    unfold csvWidth
    exact Nat.max_eq_right hhd
  have hK : csvK names (csvRawRows data) = 0 := by
    unfold csvK
    exact Nat.sub_eq_zero_of_le hhd
  have hany :
      ((csvRawRows data).any
        (fun r => csvWidth names (csvRawRows data) < r.length)) = false := by
    rw [List.any_eq_false]
    intro r hr
    simp only [hwidth, decide_eq_true_eq]
    exact Nat.not_lt.2 (hw r hr)
  have hok : read_csv data names =
      .ok ⟨names,
        typeGrid (csvIndexColTypes names (csvRawRows data))
          (csvK names (csvRawRows data)) (csvIndexGrid names (csvRawRows data)),
        typeGrid (csvColTypes names (csvRawRows data)) names.length
          (csvDataGrid names (csvRawRows data))⟩ := by
    unfold read_csv
    rw [if_neg (by simp [hempty]), if_neg (by simp [hany])]
  refine ⟨_, hok, ?_, ?_⟩
  · intro row hrow
    unfold typeGrid at hrow
    obtain ⟨r, -, rfl⟩ := List.mem_map.1 hrow
    simp
  · intro i rraw hi c hc1 hc2
    have hgrid : (csvDataGrid names (csvRawRows data))[i]? =
        some (csvPad names.length rraw) := by
      unfold csvDataGrid
      rw [List.getElem?_map, hi]
      simp [hK, hwidth]
    refine ⟨(List.range names.length).map
        (fun c2 => convertCell ((csvColTypes names (csvRawRows data)).getD c2 .obj)
          ((csvPad names.length rraw).getD c2 "")), ?_, ?_⟩
    · unfold typeGrid
      rw [List.getElem?_map, hgrid]
      rfl
    · rw [List.getElem?_map, List.getElem?_range hc2]
      simp only [Option.map_some', Option.some.injEq]
      have hpadD : (csvPad names.length rraw).getD c "" = "" := by
        unfold csvPad
        rw [List.getD_append_right _ _ _ _ hc1]
        exact getD_replicate_self _ _ _
      rw [hpadD]
      unfold convertCell
      rw [if_pos (by decide : isNA "" = true)]

/-- C3, witness: a document whose second data line has two fields against
three names parses successfully, each row has three cells, and the padded
third cell of row 1 is missing, per `read_csv_short_rows_padded`. -/
theorem read_csv_short_rows_padded_witness :
    ∃ df, read_csv "1\t2\tx\n4\t5" ["a", "b", "c"] = .ok df ∧
      (∀ row ∈ df.rows, row.length = (["a", "b", "c"] : List String).length) ∧
      (∀ (i : Nat) (rraw : List String), (csvRawRows "1\t2\tx\n4\t5")[i]? = some rraw →
        ∀ c : Nat, rraw.length ≤ c → c < (["a", "b", "c"] : List String).length →
          ∃ row, df.rows[i]? = some row ∧ row[c]? = some Cell.missing) :=
  read_csv_short_rows_padded "1\t2\tx\n4\t5" ["a", "b", "c"] (by decide)
    (by decide)
theorem stepLine_count0 {st : SplitState} {l : String} (hne : l ≠ "")
    (hch : (headChar l == '#') = false) (h0 : st.count = 0) :
    stepLine st l = .ok { st with columns := some (pySplit l), count := 1 } := by
  unfold stepLine
  rw [if_neg hne, if_neg (by simp [hch]), if_pos h0]
  simp [h0]

theorem stepLine_count1 {st : SplitState} {l : String} (hne : l ≠ "")
    (hch : (headChar l == '#') = false) (h1 : st.count = 1) :
    stepLine st l = .ok { st with dtype := some (pySplit l), count := 2 } := by
  unfold stepLine
  rw [if_neg hne, if_neg (by simp [hch]), if_neg (by simp [h1]), if_pos h1]
  simp [h1]
/-- C4 (amended): the splitter is not forward-only.  After the
column-name row and the type-hint row are consumed, a remaining line is
appended verbatim (newline-joined order preserved) to the data block only
when its first character is not `#`; a remaining line whose first
character is `#` transitions back to header collection and is appended to
the comment-header block instead. -/
theorem rdbSplit_data_block_routing :
    ∀ (text : String) (hdr : List String) (colrow hintrow : String) (rest : List String),
      splitlines text = hdr ++ colrow :: hintrow :: rest →
      (∀ l ∈ hdr, l ≠ "" ∧ (headChar l == '#') = true) →
      colrow ≠ "" → (headChar colrow == '#') = false →
      hintrow ≠ "" → (headChar hintrow == '#') = false →
      (∀ l ∈ rest, l ≠ "") →
      rdbSplit text =
        .ok ⟨hdr ++ rest.filter (fun l => headChar l == '#'),
             rest.filter (fun l => !(headChar l == '#')),
             2, some (pySplit colrow), some (pySplit hintrow)⟩ := by
  intro text hdr colrow hintrow rest hsplit hh hc1 hc2 hh1 hh2 hrest
  unfold rdbSplit
  rw [hsplit, processLines_append, processLines_comments hh initState]
  dsimp only
  simp only [processLines]
  rw [stepLine_count0 hc1 hc2 rfl]
  dsimp only
  rw [stepLine_count1 hh1 hh2 rfl]
  dsimp only
  rw [processLines_dataPhase hrest rfl]
  simp [initState]

/-- C4, witness: on the concrete document `"A\nB\n#c\nD"` the theorem
instantiates to: the data block is `["D"]` and `#c` is routed to the
header block. -/
theorem rdbSplit_data_block_routing_witness :
    rdbSplit "A\nB\n#c\nD" =
      .ok ⟨[] ++ (["#c", "D"].filter (fun l => headChar l == '#')),
           ["#c", "D"].filter (fun l => !(headChar l == '#')),
           2, some (pySplit "A"), some (pySplit "B")⟩ :=
  rdbSplit_data_block_routing "A\nB\n#c\nD" [] "A" "B" ["#c", "D"] (by decide)
    (by decide) (by decide) (by decide) (by decide) (by decide) (by decide)

/-- C8: every line of the input whose first character is `#` — wherever
it occurs, and including a line consisting of `#` alone — is preserved
verbatim and in original order in the header list returned by a
successful `read_rdb`, which equals exactly the in-order filter of the
input's lines on that predicate. -/
theorem read_rdb_header_preserved :
    ∀ (text : String) (df : DataFrame) (cols dt hd : List String),
      read_rdb text = .ok (df, cols, dt, hd) →
      hd = (splitlines text).filter (fun l => headChar l == '#') := by
  intro text df cols dt hd h
  unfold read_rdb rdbAssemble at h
  cases hs : rdbSplit text with
  | error e => rw [hs] at h; simp at h
  | ok st =>
    rw [hs] at h
    dsimp only at h
    cases hc : st.columns with
    | none => rw [hc] at h; simp at h
    | some cols2 =>
      rw [hc] at h
      dsimp only at h
      cases hcsv : read_csv (joinLines st.datalines) cols2 with
      | error e => rw [hcsv] at h; simp at h
      | ok df2 =>
        rw [hcsv] at h
        dsimp only at h
        cases hdt : st.dtype with
        | none => rw [hdt] at h; simp at h
        | some dts =>
          rw [hdt] at h
          dsimp only at h
          simp only [Except.ok.injEq, Prod.mk.injEq] at h
          obtain ⟨-, -, -, hhd⟩ := h
          rw [← hhd]
          unfold rdbSplit at hs
          have hh := processLines_ok_header hs
          simpa [initState] using hh

/-- C8, witness: for a concrete document with a bare `#` comment, a
later `# x` comment and a data section, the returned header list equals
the in-order filter of the lines, per `read_rdb_header_preserved`. -/
theorem read_rdb_header_preserved_witness :
    (["#", "# x"] : List String) =
      (splitlines "#\n# x\nc1 c2\ns s\n1\t2").filter (fun l => headChar l == '#') :=
  read_rdb_header_preserved "#\n# x\nc1 c2\ns s\n1\t2"
    ⟨["c1", "c2"], [[]], [[.int 1, .int 2]]⟩ ["c1", "c2"] ["s", "s"] ["#", "# x"]
    (by decide)

/-- C5 (amended): a blank line is not tolerated anywhere: whenever an
empty line occurs among the input's lines, `read_rdb` fails with
`IndexError` from `line[0]`.  What is tolerated is a trailing newline:
appending `\n` to a text not already ending in a line terminator leaves
`splitlines`, and hence the whole parse, unchanged. -/
theorem read_rdb_blank_vs_trailing_newline :
    (∀ text : String, "" ∈ splitlines text → read_rdb text = .error .indexError) ∧
    (∀ (text : String) (c : Char), text.data.getLast? = some c → c ≠ '\n' → c ≠ '\r' →
      read_rdb (text.push '\n') = read_rdb text) := by
  constructor
  · intro text hmem
    unfold read_rdb rdbSplit
    rw [processLines_blank_mem hmem]
    rfl
  · intro text c hlast hn hr
    have hdata : (text.push '\n').data = text.data ++ ['\n'] := by
      cases text
      rfl
    have hsp : splitlines (text.push '\n') = splitlines text := by
      unfold splitlines
      rw [hdata, splitlinesAux_append_newline text.data [] c hlast hn hr]
    unfold read_rdb rdbSplit
    rw [hsp]

/-- C5, witness: the blank third line of `"A\nB\n\nC"` makes the parse
fail with `IndexError`, and appending a trailing newline to the
well-formed `"c1\ts\n1"` does not change the parse, per
`read_rdb_blank_vs_trailing_newline`. -/
theorem read_rdb_blank_vs_trailing_newline_witness :
    read_rdb "A\nB\n\nC" = .error .indexError ∧
      read_rdb (String.push "c1\ts\n1" '\n') = read_rdb "c1\ts\n1" :=
  ⟨read_rdb_blank_vs_trailing_newline.1 "A\nB\n\nC" (by decide),
   read_rdb_blank_vs_trailing_newline.2 "c1\ts\n1" '1' (by decide) (by decide)
     (by decide)⟩

/-- C6 (amended): empty input, comment-only input and a document whose
type-hint row is absent all make the parse fail, but never with a typed
`TruncatedDocument` error, which does not exist in the code: when no
column-name row was seen the never-assigned local `columns` raises an
untyped `UnboundLocalError` (this covers empty input), and when the
column-name row is the last line the empty data block makes `read_csv`
raise `EmptyDataError`. -/
theorem read_rdb_truncated_inputs_fail :
    (∀ text : String,
      (∀ l ∈ splitlines text, l ≠ "" ∧ (headChar l == '#') = true) →
      read_rdb text = .error .unboundLocalError) ∧
    (∀ (text : String) (hdr : List String) (colrow : String),
      splitlines text = hdr ++ [colrow] →
      (∀ l ∈ hdr, l ≠ "" ∧ (headChar l == '#') = true) →
      colrow ≠ "" → (headChar colrow == '#') = false →
      read_rdb text = .error .emptyDataError) := by
  constructor
  · intro text hall
    unfold read_rdb rdbSplit
    rw [processLines_comments hall initState]
    rfl
  · intro text hdr colrow hsplit hh hc1 hc2
    unfold read_rdb rdbSplit
    rw [hsplit, processLines_append, processLines_comments hh initState]
    dsimp only
    simp only [processLines]
    rw [stepLine_count0 hc1 hc2 rfl]
    rfl

/-- C6, witness: the comment-only input `"#a"` fails with
`UnboundLocalError` and the input `"#a\nsite_no q"`, whose type-hint row
is absent, fails with `EmptyDataError`, per
`read_rdb_truncated_inputs_fail`. -/
theorem read_rdb_truncated_inputs_fail_witness :
    read_rdb "#a" = .error .unboundLocalError ∧
      read_rdb "#a\nsite_no q" = .error .emptyDataError :=
  ⟨read_rdb_truncated_inputs_fail.1 "#a" (by decide),
   read_rdb_truncated_inputs_fail.2 "#a\nsite_no q" ["#a"] "site_no q" (by decide)
     (by decide) (by decide) (by decide)⟩
theorem processLines_dtype_isSome {ls : List String} {st st' : SplitState}
    (h : processLines st ls = .ok st') (hd : st.dtype.isSome = true) :
    st'.dtype.isSome = true := by
  induction ls generalizing st with
  | nil =>
    simp only [processLines, Except.ok.injEq] at h
    rw [← h]
    exact hd
  | cons l ls ih =>
    simp only [processLines] at h
    cases hst : stepLine st l with
    | error e => rw [hst] at h; simp at h
    | ok st1 =>
      rw [hst] at h
      apply ih h
      unfold stepLine at hst
      by_cases he : l = ""
      · rw [if_pos he] at hst; simp at hst
      · rw [if_neg he] at hst
        by_cases hch : (headChar l == '#') = true
        · rw [if_pos hch] at hst
          cases hst
          exact hd
        · rw [if_neg hch] at hst
          by_cases h0 : st.count = 0
          · rw [if_pos h0] at hst
            cases hst
            exact hd
          · rw [if_neg h0] at hst
            by_cases h1 : st.count = 1
            · rw [if_pos h1] at hst
              cases hst
              simp
            · rw [if_neg h1] at hst
              cases hst
              exact hd

theorem rdbAssemble_stateView {sa sb : Except PyError SplitState}
    (h : sa.map stateView = sb.map stateView)
    (hda : ∀ st, sa = .ok st → st.dtype.isSome = true)
    (hdb : ∀ st, sb = .ok st → st.dtype.isSome = true) :
    (rdbAssemble sa).map stripHints = (rdbAssemble sb).map stripHints := by
  cases sa with
  | error e1 =>
    cases sb with
    | error e2 =>
      simp only [Except.map] at h
      cases h
      rfl
    | ok st2 => simp [Except.map] at h
  | ok st1 =>
    cases sb with
    | error e2 => simp [Except.map] at h
    | ok st2 =>
      simp only [Except.map, Except.ok.injEq] at h
      obtain ⟨hh, hdl, hcnt, hcols⟩ :
          st1.header = st2.header ∧ st1.datalines = st2.datalines ∧
            st1.count = st2.count ∧ st1.columns = st2.columns := by
        simpa [stateView, Prod.ext_iff] using h
      obtain ⟨d1, hd1⟩ := Option.isSome_iff_exists.1 (hda st1 rfl)
      obtain ⟨d2, hd2⟩ := Option.isSome_iff_exists.1 (hdb st2 rfl)
      unfold rdbAssemble
      dsimp only
      rw [hcols, hdl, hh, hd1, hd2]
      cases hc2 : st2.columns with
      | none => rfl
      | some cols =>
        dsimp only
        cases hcsv : read_csv (joinLines st2.datalines) cols with
        | error e => rfl
        | ok df => simp [stripHints, Except.map]

/-- C9 (amended): for every non-200 HTTP response the statistics fetcher
displays the raw response body and never produces a parsed table — the
parser is not invoked on that branch — but failure is only signalled for
4xx/5xx statuses, where `raise_for_status` raises `HTTPError`; for any
other non-200 status (for example 204) the raw response object is
returned as a success value instead of a failure. -/
theorem stats_non200_behavior :
    ∀ r : Response, r.status_code ≠ 200 →
      (stats r).1 = [r.text] ∧
      (∀ df : DataFrame, (stats r).2 ≠ .ok (.table df)) ∧
      (400 ≤ r.status_code ∧ r.status_code < 600 →
        (stats r).2 = .error (.httpError r.status_code)) ∧
      (¬(400 ≤ r.status_code ∧ r.status_code < 600) →
        (stats r).2 = .ok (.raw r)) := by
  intro r h
  unfold stats raise_for_status
  rw [if_pos h]
  by_cases hr : 400 ≤ r.status_code ∧ r.status_code < 600
  · rw [if_pos hr]
    refine ⟨rfl, ?_, fun _ => rfl, fun hc => absurd hr hc⟩
    intro df hdf
    simp at hdf
  · rw [if_neg hr]
    refine ⟨rfl, ?_, fun hc => absurd hc hr, fun _ => rfl⟩
    intro df hdf
    simp at hdf

/-- C9, witness: for the status-204 response with body `oops`, the body
is displayed, no table is produced, and the raw response is returned as
a success, per `stats_non200_behavior`. -/
theorem stats_non200_behavior_witness :
    (stats ⟨204, "oops"⟩).1 = ["oops"] ∧
      (∀ df : DataFrame, (stats ⟨204, "oops"⟩).2 ≠ .ok (.table df)) ∧
      (400 ≤ 204 ∧ 204 < 600 →
        (stats ⟨204, "oops"⟩).2 = .error (.httpError 204)) ∧
      (¬(400 ≤ 204 ∧ 204 < 600) →
        (stats ⟨204, "oops"⟩).2 = .ok (.raw ⟨204, "oops"⟩)) :=
  stats_non200_behavior ⟨204, "oops"⟩ (by decide)

/-- C10: the type-hint row does not interfere with parsing.  For two
input texts whose line lists agree except at the type-hint row (the
second non-comment, non-blank line, here at the same position in both),
`read_rdb` produces the same outcome up to the returned hint list: the
same dataframe, the same column names, the same header lines, and the
same exception when it fails; only the hint-list component may differ. -/
theorem read_rdb_hint_noninterference :
    ∀ (t1 t2 : String) (hdr : List String) (colrow hint1 hint2 : String)
      (rest : List String),
      splitlines t1 = hdr ++ colrow :: hint1 :: rest →
      splitlines t2 = hdr ++ colrow :: hint2 :: rest →
      (∀ l ∈ hdr, l ≠ "" ∧ (headChar l == '#') = true) →
      colrow ≠ "" → (headChar colrow == '#') = false →
      hint1 ≠ "" → (headChar hint1 == '#') = false →
      hint2 ≠ "" → (headChar hint2 == '#') = false →
      (read_rdb t1).map stripHints = (read_rdb t2).map stripHints := by
  intro t1 t2 hdr colrow hint1 hint2 rest hs1 hs2 hh hc1 hc2 hh1 hh2 hg1 hg2
  unfold read_rdb rdbSplit
  rw [hs1, hs2, processLines_append, processLines_append,
    processLines_comments hh initState]
  dsimp only
  simp only [processLines]
  rw [stepLine_count0 hc1 hc2 rfl]
  dsimp only
  rw [stepLine_count1 hh1 hh2 rfl, stepLine_count1 hg1 hg2 rfl]
  dsimp only
  apply rdbAssemble_stateView
  · exact processLines_stateView rfl
  · intro st hst
    exact processLines_dtype_isSome hst rfl
  · intro st hst
    exact processLines_dtype_isSome hst rfl

/-- C10, witness: two concrete documents identical except for the
type-hint row (`5s 3n` against `XX YY ZZ`) parse to the same
dataframe, column names and header lines, per
`read_rdb_hint_noninterference`. -/
theorem read_rdb_hint_noninterference_witness :
    (read_rdb "# h\nsite_no\tq\n5s 3n\n0012\t7").map stripHints =
      (read_rdb "# h\nsite_no\tq\nXX YY ZZ\n0012\t7").map stripHints :=
  read_rdb_hint_noninterference
    "# h\nsite_no\tq\n5s 3n\n0012\t7" "# h\nsite_no\tq\nXX YY ZZ\n0012\t7"
    ["# h"] "site_no\tq" "5s 3n" "XX YY ZZ" ["0012\t7"]
    (by decide) (by decide) (by decide) (by decide) (by decide) (by decide)
    (by decide) (by decide) (by decide)
